import Mathlib

/-!
Shallow embedding of `src/lambda_function.py` (a GroupMe → Gemini → Google
Calendar relay running as an AWS Lambda).

Modelling conventions:
* Python/JSON values are modelled by the inductive `Json`; Python `dict`s
  produced by `json.loads` are association lists with distinct keys.
* `json.loads` is an external library routine; it is modelled as an oracle
  `jsonLoads : String → Except String Json` carried by the environment `Env`
  (deterministic within one environment, the `String` on the error side being
  the exception text).
* The three outbound HTTP interactions (Gemini, token endpoint, calendar) are
  modelled by `CallResult` values carried by `Env`: the Python code only ever
  observes the outcome of `requests.post` (timeout / transport error / a
  status code plus the `.json()` body).
* Raised Python exceptions are modelled by `PyErr`; the two relevant classes
  are `requests.exceptions.RequestException` and everything else, matching the
  two `except` arms of `lambda_handler`.  Exception message texts that come
  from Python internals are modelled by fixed descriptive strings.
* Module-level configuration constants (lines 8-12 of the source) are the
  `ModuleState` record; the handler reads them and never assigns any
  module-level binding.
* Every external call the handler performs is recorded in a trace of
  `ExtCall` entries, in program order.
-/

/-- JSON / Python values flowing through the handler.  Numbers are modelled
as integers (no claim involves fractional numbers). -/
inductive Json where
  | null : Json
  | bool (b : Bool) : Json
  | num (n : Int) : Json
  | str (s : String) : Json
  | arr (elems : List Json) : Json
  | obj (fields : List (String × Json)) : Json
deriving Repr

/-- Lookup in a Python dict modelled as an association list (keys distinct,
as produced by `json.loads`). -/
def dictGet (fields : List (String × Json)) (k : String) : Option Json :=
  (fields.find? (fun p => p.1 == k)).map (fun p => p.2)

/-- Python `d[k] = v`: replace in place when the key exists, else append
(Python dicts preserve insertion order). -/
def dictSet (fields : List (String × Json)) (k : String) (v : Json) :
    List (String × Json) :=
  if (fields.find? (fun p => p.1 == k)).isSome then
    fields.map (fun p => if p.1 == k then (k, v) else p)
  else fields ++ [(k, v)]

/-- Python truthiness of a value. -/
def Json.truthy : Json → Bool
  | .null => false
  | .bool b => b
  | .num n => n != 0
  | .str s => s != ""
  | .arr elems => !elems.isEmpty
  | .obj fields => !fields.isEmpty

/-- Python truthiness of a `dict.get` result (`None` is falsy). -/
def truthyOpt : Option Json → Bool
  | none => false
  | some j => j.truthy

/-- Python `str()` of a value, as it appears inside an f-string.  Containers
are rendered by a placeholder: the only f-string interpolations in the source
that matter to the claims feed `datetime.strptime`, which rejects any
container rendering anyway. -/
def Json.pyStr : Json → String
  | .null => "None"
  | .bool true => "True"
  | .bool false => "False"
  | .num n => toString n
  | .str s => s
  | .arr _ => "<list>"
  | .obj _ => "<dict>"

/-- Escape one character the way `json.dumps` does for the strings appearing
in this development (quote, backslash, newline). -/
def jsonEscapeChar (c : Char) : String :=
  if c = '"' then "\\\""
  else if c = '\\' then "\\\\"
  else if c = '\n' then "\\n"
  else String.mk [c]

/-- String-content escaping used by `json.dumps`. -/
def jsonEscape (s : String) : String :=
  String.join (s.data.map jsonEscapeChar)

mutual

/-- The serialisation `json.dumps` applies to the handler's response bodies
(default separators: `", "` between items, `": "` after keys). -/
def Json.dumps : Json → String
  | .null => "null"
  | .bool true => "true"
  | .bool false => "false"
  | .num n => toString n
  | .str s => "\"" ++ jsonEscape s ++ "\""
  | .arr elems => "[" ++ dumpsList elems ++ "]"
  | .obj fields => "\x7b" ++ dumpsFields fields ++ "\x7d"

/-- Comma-joined serialisation of array elements. -/
def dumpsList : List Json → String
  | [] => ""
  | [j] => Json.dumps j
  | j :: rest => Json.dumps j ++ ", " ++ dumpsList rest

/-- Comma-joined serialisation of object fields. -/
def dumpsFields : List (String × Json) → String
  | [] => ""
  | [(k, v)] => "\"" ++ jsonEscape k ++ "\": " ++ Json.dumps v
  | (k, v) :: rest =>
      "\"" ++ jsonEscape k ++ "\": " ++ Json.dumps v ++ ", " ++ dumpsFields rest

end

/-- Python `str.strip()` (no argument): drop whitespace at both ends. -/
def pyStrip (s : String) : String :=
  String.mk (((s.data.dropWhile Char.isWhitespace).reverse.dropWhile
    Char.isWhitespace).reverse)

/-- Python `str.lstrip(chars)`: drop leading characters belonging to the set. -/
def lstripChars (cs : List Char) (s : String) : String :=
  String.mk (s.data.dropWhile (fun c => cs.contains c))

/-- Python `str.rstrip(chars)`: drop trailing characters belonging to the set. -/
def rstripChars (cs : List Char) (s : String) : String :=
  String.mk ((s.data.reverse.dropWhile (fun c => cs.contains c)).reverse)

/-- The backtick character. -/
def backtick : Char := Char.ofNat 96

/-- Character set of the literal argument in `lstrip("\x60\x60\x60json")`
(Python strips by character set, not by prefix). -/
def fenceChars : List Char := [backtick, 'j', 's', 'o', 'n']

/-- Character set of the literal argument in `rstrip("\x60\x60\x60")`. -/
def tickChars : List Char := [backtick]

/-- The fence cleanup of line 86 of the source:
`json_text_raw.strip().lstrip("\x60\x60\x60json").rstrip("\x60\x60\x60")`. -/
def fenceStrip (s : String) : String :=
  rstripChars tickChars (lstripChars fenceChars (pyStrip s))

/-- Naive `datetime` value (no time zone, microsecond always 0 here). -/
structure PyDateTime where
  year : Nat
  month : Nat
  day : Nat
  hour : Nat
  minute : Nat
  second : Nat
deriving Repr, DecidableEq

/-- Gregorian leap-year test. -/
def isLeap (y : Nat) : Bool :=
  (y % 4 == 0 && y % 100 != 0) || y % 400 == 0

/-- Number of days of month `m` (1-12) in year `y`. -/
def daysInMonth (y m : Nat) : Nat :=
  if m == 2 then (if isLeap y then 29 else 28)
  else if m == 4 || m == 6 || m == 9 || m == 11 then 30
  else 31

/-- Validation performed by the `datetime` constructor: this is where
`datetime.strptime` rejects e.g. February 30. -/
def mkDateTime (y m d h mi s : Nat) : Option PyDateTime :=
  if 1 ≤ y ∧ y ≤ 9999 ∧ 1 ≤ m ∧ m ≤ 12 ∧ 1 ≤ d ∧ d ≤ daysInMonth y m ∧
      h ≤ 23 ∧ mi ≤ 59 ∧ s ≤ 59 then
    some ⟨y, m, d, h, mi, s⟩
  else none

/-- Decimal digit value of a character, if it is a digit. -/
def digitVal (c : Char) : Option Nat :=
  if 48 ≤ c.toNat ∧ c.toNat ≤ 57 then some (c.toNat - 48) else none

/-- Consume one expected literal character. -/
def expectChar (c : Char) : List Char → Option (List Char)
  | x :: rest => if x = c then some rest else none
  | [] => none

/-- The `%Y` directive of `strptime`: exactly four digits. -/
def parseY : List Char → Option (Nat × List Char)
  | a :: b :: c :: d :: rest => do
      let x1 ← digitVal a
      let x2 ← digitVal b
      let x3 ← digitVal c
      let x4 ← digitVal d
      pure (x1 * 1000 + x2 * 100 + x3 * 10 + x4, rest)
  | _ => none

/-- A numeric `strptime` directive whose regex alternation accepts a two-digit
value in `[lo2, hi2]` or a one-digit value in `[lo1, 9]`.  Mirrors the CPython
patterns: the two-digit branch is taken exactly when it matches, since every
field in the format is followed by a non-digit literal, which defeats any
later backtracking to the one-digit branch. -/
def parseNum2or1 (lo2 hi2 lo1 : Nat) : List Char → Option (Nat × List Char)
  | [] => none
  | c1 :: rest =>
    match digitVal c1 with
    | none => none
    | some d1 =>
      match rest with
      | c2 :: rest2 =>
        match digitVal c2 with
        | some d2 =>
          let two := d1 * 10 + d2
          if lo2 ≤ two ∧ two ≤ hi2 then some (two, rest2)
          else if lo1 ≤ d1 then some (d1, rest)
          else none
        | none => if lo1 ≤ d1 then some (d1, rest) else none
      | [] => if lo1 ≤ d1 then some (d1, []) else none

/-- `%m` (month): regex `1[0-2]|0[1-9]|[1-9]`. -/
def parseMonthNum : List Char → Option (Nat × List Char) := parseNum2or1 1 12 1

/-- `%d` (day): regex `3[01]|[12]\d|0[1-9]|[1-9]`. -/
def parseDayNum : List Char → Option (Nat × List Char) := parseNum2or1 1 31 1

/-- `%H` (hour): regex `2[0-3]|[0-1]\d|\d`. -/
def parseHourNum : List Char → Option (Nat × List Char) := parseNum2or1 0 23 0

/-- `%M` / `%S` (minute, second): regex `[0-5]\d|\d`. -/
def parseMinSecNum : List Char → Option (Nat × List Char) := parseNum2or1 0 59 0

/-- The call `datetime.strptime(s, "%Y-%m-%dT%H:%M:%S")` from line 133 of the
source: full-match field parsing followed by constructor validation. -/
def strptimeYmdHMS (s : String) : Option PyDateTime := do
  let (y, r) ← parseY s.data
  let r ← expectChar '-' r
  let (m, r) ← parseMonthNum r
  let r ← expectChar '-' r
  let (d, r) ← parseDayNum r
  let r ← expectChar 'T' r
  let (h, r) ← parseHourNum r
  let r ← expectChar ':' r
  let (mi, r) ← parseMinSecNum r
  let r ← expectChar ':' r
  let (sec, r) ← parseMinSecNum r
  if r.isEmpty then mkDateTime y m d h mi sec else none

/-- The addition `start_dt + timedelta(hours=1)` from line 134, with carry
into day, month and year.  (Python would raise `OverflowError` past year
9999; that exception would be caught by the same `try` and is not modelled
separately.) -/
def addOneHour (dt : PyDateTime) : PyDateTime :=
  if dt.hour + 1 ≤ 23 then
    { dt with hour := dt.hour + 1 }
  else if dt.day + 1 ≤ daysInMonth dt.year dt.month then
    { dt with hour := 0, day := dt.day + 1 }
  else if dt.month + 1 ≤ 12 then
    { dt with hour := 0, day := 1, month := dt.month + 1 }
  else
    { dt with hour := 0, day := 1, month := 1, year := dt.year + 1 }

/-- Left-pad to two digits. -/
def pad2 (n : Nat) : String :=
  if n < 10 then "0" ++ toString n else toString n

/-- Left-pad to four digits. -/
def pad4 (n : Nat) : String :=
  if n < 10 then "000" ++ toString n
  else if n < 100 then "00" ++ toString n
  else if n < 1000 then "0" ++ toString n
  else toString n

/-- Python `datetime.isoformat()` for a whole-second value. -/
def PyDateTime.isoformat (dt : PyDateTime) : String :=
  pad4 dt.year ++ "-" ++ pad2 dt.month ++ "-" ++ pad2 dt.day ++ "T" ++
    pad2 dt.hour ++ ":" ++ pad2 dt.minute ++ ":" ++ pad2 dt.second

/-- Days in year `y`. -/
def daysInYear (y : Nat) : Nat := if isLeap y then 366 else 365

/-- Total days in all years strictly before `y`. -/
def daysBeforeYear : Nat → Nat
  | 0 => 0
  | n + 1 => daysBeforeYear n + daysInYear n

/-- Total days in the months of year `y` strictly before month `m`. -/
def daysBeforeMonth (y : Nat) : Nat → Nat
  | 0 => 0
  | n + 1 => daysBeforeMonth y n + (if n == 0 then 0 else daysInMonth y n)

/-- Minute count of a datetime on a linear time axis; used to state that the
calendar event's end is exactly one hour after its start. -/
def totalMinutes (dt : PyDateTime) : Nat :=
  ((daysBeforeYear dt.year + daysBeforeMonth dt.year dt.month + (dt.day - 1))
      * 24 + dt.hour) * 60 + dt.minute

/-- In-range datetime as enforced by `mkDateTime`. -/
def PyDateTime.InRange (dt : PyDateTime) : Prop :=
  1 ≤ dt.month ∧ dt.month ≤ 12 ∧ 1 ≤ dt.day ∧
    dt.day ≤ daysInMonth dt.year dt.month ∧ dt.hour ≤ 23 ∧ dt.minute ≤ 59

/-- Outcome of a call to the S3 object store for one (bucket, key) pair:
either some exception, or the decoded text content of the object. -/
inductive S3Result where
  | err (msg : String) : S3Result
  | ok (content : String) : S3Result
deriving Repr

/-- Outcome of one `requests.post` as the Python code observes it: a raised
`requests.exceptions.Timeout`, another raised transport-level
`RequestException`, or a response with a status code and the value its
`.json()` method yields. -/
inductive CallResult where
  | timeout : CallResult
  | netError (msg : String) : CallResult
  | resp (status : Nat) (body : Json) : CallResult
deriving Repr

/-- A raised Python exception, classified the way the two `except` arms of
`lambda_handler` classify it. -/
inductive PyErr where
  | requestException (msg : String) : PyErr
  | otherError (msg : String) : PyErr
deriving Repr, DecidableEq

/-- External world of one invocation: the S3 store, the `json.loads` library
routine (an oracle from strings to parses, with the exception text on
failure), and the responses of the three HTTP endpoints contacted. -/
structure Env where
  s3 : String → String → S3Result
  jsonLoads : String → Except String Json
  geminiPost : CallResult
  tokenPost : CallResult
  calendarPost : CallResult

/-- One recorded external call of the handler. -/
inductive ExtCall where
  | secretFetch (key : String) : ExtCall
  | aiCall : ExtCall
  | tokenCall : ExtCall
  | calendarCall : ExtCall
deriving Repr, DecidableEq

/-- The pair a Lambda handler returns. -/
structure LambdaResponse where
  statusCode : Nat
  body : String
deriving Repr, DecidableEq

/-- Module-level configuration constants of lines 8-12 of the source.  The
handler reads these and never assigns any module-level binding. -/
structure ModuleState where
  s3_bucket_name : String
  s3_gemini_key_file : String
  s3_google_creds_file : String
  s3_calendar_id_file : String
  timezone : String
deriving Repr, DecidableEq

/-- The constants the module initialises its globals to. -/
def initModuleState : ModuleState :=
  { s3_bucket_name := "groupme-bucket"
    s3_gemini_key_file := "gemini_api_key.txt"
    s3_google_creds_file := "google_creds.json"
    s3_calendar_id_file := "calendar_id.txt"
    timezone := "America/New_York" }

/-- Python `str(KeyError(k))`, which is the repr of the missing key. -/
def keyErrStr (k : String) : String := "\x27" ++ k ++ "\x27"

/-- Message of the `requests.exceptions.HTTPError` that
`raise_for_status` raises on a 4xx/5xx status (text modelled). -/
def httpErrMsg (status : Nat) : String := "HTTP error " ++ toString status

/-- Lines 21-31, `get_secret`: fetch, decode, trim; empty content raises
`ValueError`; every exception is caught and turned into `None`. -/
def get_secret (env : Env) (bucket : String) (file_key : String) :
    Option String :=
  match env.s3 bucket file_key with
  | .err _ => none
  | .ok content =>
    let secret := pyStrip content
    if secret == "" then none else secret

/-- The record `{"event_found": False}` that every failure path of
`extract_event_data` returns. -/
def eventNotFound : Json := Json.obj [("event_found", Json.bool false)]

/-- The chained access
`gemini_output["candidates"][0]["content"]["parts"][0]["text"]` of line 83;
`none` stands for any raised indexing/type error (all caught by the
enclosing `except`), and a non-string text field also yields `none` because
the subsequent `.strip()` would raise. -/
def geminiText (body : Json) : Option String := do
  let cands ← match body with | .obj fs => dictGet fs "candidates" | _ => none
  let c0 ← match cands with | .arr (x :: _) => some x | _ => none
  let content ← match c0 with | .obj fs => dictGet fs "content" | _ => none
  let parts ← match content with | .obj fs => dictGet fs "parts" | _ => none
  let p0 ← match parts with | .arr (x :: _) => some x | _ => none
  let t ← match p0 with | .obj fs => dictGet fs "text" | _ => none
  match t with | .str s => some s | _ => none

/-- Lines 35-96, `extract_event_data`: empty API key short-circuits; the
Gemini POST is attempted otherwise (recorded in the trace); every failure —
timeout, transport error, non-success status, unextractable text, JSON parse
failure — degrades to `eventNotFound`.  On a successful parse the parsed
value itself is returned.  (The prompt string, which embeds `raw_text` and
the current date, influences only the external response, which `Env`
already fixes, so it is not materialised.) -/
def extract_event_data (env : Env) (api_key : String) (raw_text : Json) :
    Json × List ExtCall :=
  if api_key == "" then (eventNotFound, [])
  else
    match env.geminiPost with
    | .timeout => (eventNotFound, [.aiCall])
    | .netError _ => (eventNotFound, [.aiCall])
    | .resp status body =>
      if 400 ≤ status then (eventNotFound, [.aiCall])
      else
        match geminiText body with
        | none => (eventNotFound, [.aiCall])
        | some json_text_raw =>
          match env.jsonLoads (fenceStrip json_text_raw) with
          | .ok event_data => (event_data, [.aiCall])
          | .error _ => (eventNotFound, [.aiCall])

/-- What `refresh_access_token` does, seen from `lambda_handler`: raise, or
return `None`, or return the value of `token_response["access_token"]`. -/
inductive RefreshResult where
  | raised (e : PyErr) : RefreshResult
  | returnedNone : RefreshResult
  | token (t : Json) : RefreshResult
deriving Repr

/-- Lines 104-107: take the value under `"installed"`, else under `"web"`,
else the record itself. -/
def unwrapCreds (fs : List (String × Json)) : Json :=
  match dictGet fs "installed" with
  | some j => j
  | none =>
    match dictGet fs "web" with
    | some j => j
    | none => .obj fs

/-- Lines 109-125 of `refresh_access_token`, after the unwrap step: build
`token_data` via `.get`, return `None` unless all three fields are truthy,
otherwise POST to the token endpoint; `raise_for_status` and the
`["access_token"]` access may raise.  A non-dict credential value makes the
`.get` calls raise. -/
def refreshFromCreds (env : Env) (creds : Json) : RefreshResult × List ExtCall :=
  match creds with
  | .obj fs =>
    let client_id := dictGet fs "client_id"
    let client_secret := dictGet fs "client_secret"
    let refresh_token := dictGet fs "refresh_token"
    if truthyOpt client_id && truthyOpt client_secret && truthyOpt refresh_token then
      match env.tokenPost with
      | .timeout => (.raised (.requestException "request timed out"), [.tokenCall])
      | .netError m => (.raised (.requestException m), [.tokenCall])
      | .resp status body =>
        if 400 ≤ status then
          (.raised (.requestException (httpErrMsg status)), [.tokenCall])
        else
          match body with
          | .obj bfs =>
            match dictGet bfs "access_token" with
            | some t => (.token t, [.tokenCall])
            | none => (.raised (.otherError (keyErrStr "access_token")), [.tokenCall])
          | _ => (.raised (.otherError "token response is not a dict"), [.tokenCall])
    else (.returnedNone, [])
  | _ => (.raised (.otherError "credentials value has no attribute get"), [])

/-- Lines 100-125, `refresh_access_token`: unwrap nested `"installed"` /
`"web"` shapes, then proceed on the unwrapped value.  A non-dict argument
raises at the membership test or at the `.get` calls (modelled as the same
raised outcome `refreshFromCreds` produces for a non-dict). -/
def refresh_access_token (env : Env) (creds : Json) : RefreshResult × List ExtCall :=
  match creds with
  | .obj fs => refreshFromCreds env (unwrapCreds fs)
  | other => refreshFromCreds env other

/-- Calendar event body built at lines 139-145 (`start`/`end` sub-objects
flattened into the four dateTime/timeZone fields). -/
structure EventBody where
  summary : Json
  location : Json
  description : String
  startDateTime : String
  startTimeZone : String
  endDateTime : String
  endTimeZone : String
deriving Repr

/-- Why `create_google_event` fails to build the event body. -/
inductive BuildFail where
  | invalidDateTime : BuildFail
  | keyError (k : String) : BuildFail
deriving Repr, DecidableEq

/-- Lines 131-145 of `create_google_event`: the guarded date/time parsing
(a missing `date`/`time` key raises `KeyError` and a bad format raises
`ValueError`, both caught and mapped to the error-dict path) followed by the
unguarded dict-literal construction, whose `['title']`, `['location']`,
`['group_context']`, `['description']` accesses raise `KeyError` out of the
function in evaluation order. -/
def build_event_body (st : ModuleState) (event_data : List (String × Json)) :
    Except BuildFail EventBody :=
  match dictGet event_data "date" with
  | none => .error .invalidDateTime
  | some d =>
  match dictGet event_data "time" with
  | none => .error .invalidDateTime
  | some t =>
  match strptimeYmdHMS (d.pyStr ++ "T" ++ t.pyStr ++ ":00") with
  | none => .error .invalidDateTime
  | some start_dt =>
  let end_dt := addOneHour start_dt
  match dictGet event_data "title" with
  | none => .error (.keyError "title")
  | some title =>
  match dictGet event_data "location" with
  | none => .error (.keyError "location")
  | some location =>
  match dictGet event_data "group_context" with
  | none => .error (.keyError "group_context")
  | some group_context =>
  match dictGet event_data "description" with
  | none => .error (.keyError "description")
  | some description =>
  .ok
    { summary := title
      location := location
      description :=
        "Group: " ++ group_context.pyStr ++ "\n" ++ "Details: " ++ description.pyStr
      startDateTime := start_dt.isoformat
      startTimeZone := st.timezone
      endDateTime := end_dt.isoformat
      endTimeZone := st.timezone }

/-- What `create_google_event` does, seen from `lambda_handler`: return the
error dict of line 137, raise, or return the calendar response body (the
successfully posted event body is carried along for the record). -/
inductive CreateResult where
  | errorDict : CreateResult
  | raised (e : PyErr) : CreateResult
  | ok (posted : EventBody) (respBody : Json) : CreateResult
deriving Repr

/-- Lines 129-152, `create_google_event`: build the body (returning the
`"Invalid date/time"` error dict when the guarded part fails, raising on a
missing body key), then POST it; `raise_for_status` raises on 4xx/5xx and
otherwise `response.json()` is returned.  The access token and calendar id
shape only the request, not the observable outcome. -/
def create_google_event (st : ModuleState) (env : Env) (access_token : Json)
    (calendar_id : String) (event_data : List (String × Json)) :
    CreateResult × List ExtCall :=
  match build_event_body st event_data with
  | .error .invalidDateTime => (.errorDict, [])
  | .error (.keyError k) => (.raised (.otherError (keyErrStr k)), [])
  | .ok event_body =>
    match env.calendarPost with
    | .timeout => (.raised (.requestException "request timed out"), [.calendarCall])
    | .netError m => (.raised (.requestException m), [.calendarCall])
    | .resp status respBody =>
      if 400 ≤ status then
        (.raised (.requestException (httpErrMsg status)), [.calendarCall])
      else (.ok event_body respBody, [.calendarCall])

/-- The value `{"status": "error", "message": "Invalid date/time"}` returned
at line 137. -/
def invalidDateTimeDict : Json :=
  Json.obj [("status", Json.str "error"), ("message", Json.str "Invalid date/time")]

/-- Response produced by the two `except` arms of `lambda_handler`
(lines 203-208). -/
def handlePyErr : PyErr → LambdaResponse
  | .requestException m =>
      ⟨500, Json.dumps (.str ("API Call Error: " ++ m))⟩
  | .otherError m =>
      ⟨500, Json.dumps (.str ("Unexpected Error: " ++ m))⟩

/-- The `{"statusCode": 500, "body": json.dumps(msg)}` responses. -/
def err500 (msg : String) : LambdaResponse :=
  ⟨500, Json.dumps (.str msg)⟩

/-- The 200 response built at lines 195-198 for a calendar-creation return
value `calendar_response`: note the `"status": "Event created."` body is
emitted for any returned dict, its `htmlLink` defaulting to `None`. -/
def eventCreatedResponse (calendar_response : List (String × Json)) :
    LambdaResponse :=
  ⟨200, Json.dumps (.obj
    [("status", Json.str "Event created."),
     ("link", (dictGet calendar_response "htmlLink").getD .null)])⟩

/-- The test `groupme_payload.get("sender_type") == "bot"` of line 173:
Python `==` against the string literal holds only for the equal string. -/
def isBotPayload (pfs : List (String × Json)) : Bool :=
  match dictGet pfs "sender_type" with
  | some (.str s) => s == "bot"
  | _ => false

/-- The 200 response of line 201. -/
def noEventResponse : LambdaResponse :=
  ⟨200, Json.dumps (.obj [("status", Json.str "No event found.")])⟩

/-- Lines 172-201 of `lambda_handler`: everything after the secrets are
loaded and the GroupMe payload is parsed.  Returns the response and the
trace of external calls made in this stage. -/
def handle_message (st : ModuleState) (env : Env) (gemini_key : String)
    (google_creds : Json) (calendar_id : String) (payload : Json) :
    LambdaResponse × List ExtCall :=
  match payload with
  | .obj pfs =>
    if isBotPayload pfs then (⟨200, "Ignored bot message"⟩, [])
    else
      let raw_text := (dictGet pfs "text").getD (.str "")
      let group_name := (dictGet pfs "group_name").getD (.str "Unknown Group")
      let ai := extract_event_data env gemini_key raw_text
      match ai.1 with
      | .obj efs =>
        let event_data := dictSet efs "group_context" group_name
        if truthyOpt (dictGet event_data "event_found") then
          let refreshed := refresh_access_token env google_creds
          match refreshed.1 with
          | .raised e => (handlePyErr e, ai.2 ++ refreshed.2)
          | .returnedNone =>
              (err500 "Failed to refresh Google access token.", ai.2 ++ refreshed.2)
          | .token access_token =>
            if access_token.truthy then
              let created :=
                create_google_event st env access_token calendar_id event_data
              match created.1 with
              | .raised e => (handlePyErr e, ai.2 ++ refreshed.2 ++ created.2)
              | .errorDict =>
                  (eventCreatedResponse
                    [("status", Json.str "error"),
                     ("message", Json.str "Invalid date/time")],
                   ai.2 ++ refreshed.2 ++ created.2)
              | .ok _posted respBody =>
                match respBody with
                | .obj rfs =>
                    (eventCreatedResponse rfs, ai.2 ++ refreshed.2 ++ created.2)
                | _ =>
                    (handlePyErr
                      (.otherError "calendar response has no attribute get"),
                     ai.2 ++ refreshed.2 ++ created.2)
            else
              (err500 "Failed to refresh Google access token.", ai.2 ++ refreshed.2)
        else (noEventResponse, ai.2)
      | _ =>
          (handlePyErr (.otherError "event data does not support item assignment"),
           ai.2)
  | _ => (handlePyErr (.otherError "payload has no attribute get"), [])

/-- Trace of the three unconditional secret fetches at lines 159-161. -/
def secretTrace (st : ModuleState) : List ExtCall :=
  [.secretFetch st.s3_gemini_key_file, .secretFetch st.s3_google_creds_file,
   .secretFetch st.s3_calendar_id_file]

/-- Lines 156-208, `lambda_handler`: fetch the three secrets (always, and
first), fail with 500 when any is missing, parse the credential secret, read
`event["body"]`, parse it, and hand over to the message stage; the two
`except` arms convert raised errors into 500 responses.  Returns the
response and the full trace of external calls. -/
def lambda_handler (st : ModuleState) (env : Env) (event : Json) :
    LambdaResponse × List ExtCall :=
  let gemini_key := get_secret env st.s3_bucket_name st.s3_gemini_key_file
  let google_creds_json := get_secret env st.s3_bucket_name st.s3_google_creds_file
  let calendar_id := get_secret env st.s3_bucket_name st.s3_calendar_id_file
  let tr0 := secretTrace st
  match gemini_key, google_creds_json, calendar_id with
  | some gk, some gcj, some cal_id =>
    (match env.jsonLoads gcj with
     | .error m => (handlePyErr (.otherError m), tr0)
     | .ok google_creds =>
       match event with
       | .obj evfs =>
         (match dictGet evfs "body" with
          | some (.str body_str) =>
            (match env.jsonLoads body_str with
             | .ok payload =>
               let staged := handle_message st env gk google_creds cal_id payload
               (staged.1, tr0 ++ staged.2)
             | .error m => (handlePyErr (.otherError m), tr0))
          | some _ =>
              (handlePyErr (.otherError "the JSON object must be str"), tr0)
          | none => (handlePyErr (.otherError (keyErrStr "body")), tr0))
       | _ => (handlePyErr (.otherError "event object is not subscriptable"), tr0))
  | _, _, _ => (err500 "Missing secrets.", tr0)

/-- One warm-container invocation: the handler runs and the module-level
state it can see is carried to the next invocation.  The source assigns no
module-level binding, so the state passes through unchanged. -/
def invoke (st : ModuleState) (env : Env) (event : Json) :
    LambdaResponse × List ExtCall × ModuleState :=
  ((lambda_handler st env event).1, (lambda_handler st env event).2, st)

/-- A deterministic `json.loads` oracle built from a finite table of strings
known to parse, every other string raising the usual decode error. -/
def tableLoads (table : List (String × Json)) : String → Except String Json :=
  fun s =>
    match table.find? (fun p => p.1 == s) with
    | some p => .ok p.2
    | none => .error "Expecting value: line 1 column 1 (char 0)"

/-- An S3 store holding the three configured secret objects. -/
def mkS3 (gem creds cal : S3Result) : String → String → S3Result :=
  fun _bucket key =>
    if key == "gemini_api_key.txt" then gem
    else if key == "google_creds.json" then creds
    else if key == "calendar_id.txt" then cal
    else .err "NoSuchKey"

/-- Stored Gemini API key used in the concrete runs. -/
def geminiKeyText : String := "AIzaKey123"

/-- Stored calendar id used in the concrete runs. -/
def calendarIdText : String := "primary"

/-- Stored OAuth credential JSON text (flat shape, all three fields). -/
def credsSecretText : String :=
  "\x7b\"client_id\": \"cid.apps\", \"client_secret\": \"cs3cr3t\", \"refresh_token\": \"1//rtok\"\x7d"

/-- Parse of `credsSecretText`. -/
def credsJsonFull : Json :=
  Json.obj [("client_id", Json.str "cid.apps"),
            ("client_secret", Json.str "cs3cr3t"),
            ("refresh_token", Json.str "1//rtok")]

/-- Stored OAuth credential JSON text missing `refresh_token`. -/
def credsSecretTextNoRT : String :=
  "\x7b\"client_id\": \"cid.apps\", \"client_secret\": \"cs3cr3t\"\x7d"

/-- Parse of `credsSecretTextNoRT`. -/
def credsJsonNoRT : Json :=
  Json.obj [("client_id", Json.str "cid.apps"),
            ("client_secret", Json.str "cs3cr3t")]

/-- Inbound webhook body text of a bot-originated message. -/
def botBodyText : String :=
  "\x7b\"sender_type\": \"bot\", \"text\": \"echo\", \"group_name\": \"FC Test\"\x7d"

/-- Parse of `botBodyText`. -/
def botPayloadJson : Json :=
  Json.obj [("sender_type", Json.str "bot"), ("text", Json.str "echo"),
            ("group_name", Json.str "FC Test")]

/-- Inbound webhook body text of a user message. -/
def userBodyText : String :=
  "\x7b\"sender_type\": \"user\", \"text\": \"Pickup game Friday at 6\", \"group_name\": \"FC Test\"\x7d"

/-- Parse of `userBodyText`. -/
def userPayloadJson : Json :=
  Json.obj [("sender_type", Json.str "user"),
            ("text", Json.str "Pickup game Friday at 6"),
            ("group_name", Json.str "FC Test")]

/-- Gemini response envelope around a model output text. -/
def geminiBody (t : String) : Json :=
  Json.obj [("candidates", Json.arr
    [Json.obj [("content", Json.obj [("parts", Json.arr
      [Json.obj [("text", Json.str t)]])])]])]

/-- Model output text announcing a complete event. -/
def modelTextFound : String :=
  "\x7b\"event_found\": true, \"title\": \"Pickup game\", \"date\": \"2025-10-17\", \"time\": \"18:00\", \"location\": \"South Field\", \"description\": \"Weekly game\"\x7d"

/-- Parse of `modelTextFound`. -/
def modelJsonFound : Json :=
  Json.obj [("event_found", Json.bool true), ("title", Json.str "Pickup game"),
            ("date", Json.str "2025-10-17"), ("time", Json.str "18:00"),
            ("location", Json.str "South Field"),
            ("description", Json.str "Weekly game")]

/-- Model output text announcing an event whose date and time are null. -/
def modelTextNullDate : String :=
  "\x7b\"event_found\": true, \"title\": \"Pickup game\", \"date\": null, \"time\": null, \"location\": \"South Field\", \"description\": \"Weekly game\"\x7d"

/-- Parse of `modelTextNullDate`. -/
def modelJsonNullDate : Json :=
  Json.obj [("event_found", Json.bool true), ("title", Json.str "Pickup game"),
            ("date", Json.null), ("time", Json.null),
            ("location", Json.str "South Field"),
            ("description", Json.str "Weekly game")]

/-- Token endpoint success body. -/
def tokenRespBody : Json :=
  Json.obj [("access_token", Json.str "ya29.token"), ("expires_in", Json.num 3599)]

/-- Calendar endpoint success body. -/
def calendarRespBody : Json :=
  Json.obj [("id", Json.str "evt1"),
            ("htmlLink", Json.str "https://calendar.google.com/event?eid=evt1")]

/-- Model output text that is a JSON object without `event_found`. -/
def modelTextNoEF : String := "\x7b\"title\": \"Lunch\"\x7d"

/-- Parse of `modelTextNoEF`. -/
def modelJsonNoEF : Json := Json.obj [("title", Json.str "Lunch")]

/-- Model output text announcing an event that lacks `title`. -/
def modelTextNoTitle : String :=
  "\x7b\"event_found\": true, \"date\": \"2025-10-17\", \"time\": \"18:00\", \"location\": \"South Field\", \"description\": \"Weekly game\"\x7d"

/-- Parse of `modelTextNoTitle`. -/
def modelJsonNoTitle : Json :=
  Json.obj [("event_found", Json.bool true),
            ("date", Json.str "2025-10-17"), ("time", Json.str "18:00"),
            ("location", Json.str "South Field"),
            ("description", Json.str "Weekly game")]

/-- The `json.loads` table shared by the concrete runs. -/
def loadsTable : List (String × Json) :=
  [(credsSecretText, credsJsonFull),
   (modelTextNoEF, modelJsonNoEF),
   (modelTextNoTitle, modelJsonNoTitle),
   (credsSecretTextNoRT, credsJsonNoRT),
   (botBodyText, botPayloadJson),
   (userBodyText, userPayloadJson),
   (modelTextFound, modelJsonFound),
   (modelTextNullDate, modelJsonNullDate)]

/-- A healthy environment: secrets present, Gemini answering with model text
`t`, token endpoint and calendar endpoint answering 200. -/
def happyEnv (t : String) : Env :=
  { s3 := mkS3 (.ok geminiKeyText) (.ok credsSecretText) (.ok calendarIdText)
    jsonLoads := tableLoads loadsTable
    geminiPost := .resp 200 (geminiBody t)
    tokenPost := .resp 200 tokenRespBody
    calendarPost := .resp 200 calendarRespBody }

/-- The Lambda `event` argument wrapping a webhook body text. -/
def mkEvent (body : String) : Json := Json.obj [("body", Json.str body)]

/-- The event-data dict the handler passes to the calendar creator: the
extracted record with `group_context` set from the payload. -/
def handlerEventData (jfs pfs : List (String × Json)) : List (String × Json) :=
  dictSet jfs "group_context"
    ((dictGet pfs "group_name").getD (.str "Unknown Group"))

/-- Environment in which the calendar POST is answered 403. -/
def envCal403 : Env :=
  { happyEnv modelTextFound with calendarPost := .resp 403 (Json.obj []) }

/-- Environment in which the Gemini-key secret fetch errors. -/
def envNoGemini : Env :=
  { happyEnv modelTextFound with
      s3 := mkS3 (.err "AccessDenied") (.ok credsSecretText) (.ok calendarIdText) }

/-- Conditions under which the handler's steps 1-2 succeed and control
reaches line 172 with the given parsed ingredients: the three secret fetches
succeed, the credential secret parses, and `event["body"]` is a string that
parses to the dict `pfs`. -/
def ReachesMessage (st : ModuleState) (env : Env) (event : Json)
    (gk gcj cal_id : String) (creds : Json) (pfs : List (String × Json)) :
    Prop :=
  get_secret env st.s3_bucket_name st.s3_gemini_key_file = some gk ∧
  get_secret env st.s3_bucket_name st.s3_google_creds_file = some gcj ∧
  get_secret env st.s3_bucket_name st.s3_calendar_id_file = some cal_id ∧
  env.jsonLoads gcj = .ok creds ∧
  ∃ evfs body_str, event = .obj evfs ∧
    dictGet evfs "body" = some (.str body_str) ∧
    env.jsonLoads body_str = .ok (.obj pfs)

/-- The failure modes of the Gemini interaction as `extract_event_data`
observes them: a timeout, another transport error, a non-success status, an
unextractable model text, or model text that fails to parse as JSON after
fence stripping. -/
def AiFailure (env : Env) : Prop :=
  env.geminiPost = .timeout ∨
  (∃ m, env.geminiPost = .netError m) ∨
  (∃ s b, env.geminiPost = .resp s b ∧ 400 ≤ s) ∨
  (∃ s b, env.geminiPost = .resp s b ∧ s < 400 ∧ geminiText b = none) ∨
  (∃ s b t m, env.geminiPost = .resp s b ∧ s < 400 ∧ geminiText b = some t ∧
    env.jsonLoads (fenceStrip t) = .error m)

/-- Environment in which the Gemini call times out. -/
def envAiTimeout : Env :=
  { happyEnv modelTextFound with geminiPost := .timeout }

/-- Environment whose stored credential secret lacks `refresh_token`. -/
def envNoRT : Env :=
  { happyEnv modelTextFound with
      s3 := mkS3 (.ok geminiKeyText) (.ok credsSecretTextNoRT) (.ok calendarIdText) }


theorem get_secret_some_ne_empty {env : Env} {b k s : String}
    (h : get_secret env b k = some s) : (s == "") = false := by
  unfold get_secret at h
  split at h
  · exact absurd h (by simp)
  · next content heq =>
    by_cases hc : (pyStrip content == "") = true
    · simp [hc] at h
    · simp [hc] at h
      subst h
      simpa using hc

theorem dictGet_dictSet_self (fs : List (String × Json)) (k : String) (v : Json) :
    dictGet (dictSet fs k v) k = some v := by
  unfold dictGet dictSet
  split
  · next hsome =>
    rw [List.find?_map]
    have hcomp : ((fun p : String × Json => p.1 == k) ∘
        fun p : String × Json => if p.1 == k then (k, v) else p)
        = fun p : String × Json => p.1 == k := by
      funext p
      by_cases hp : (p.1 == k) = true <;> simp [Function.comp, hp]
    rw [hcomp]
    cases hf : List.find? (fun p : String × Json => p.1 == k) fs with
    | none => rw [hf] at hsome; simp at hsome
    | some q =>
      have hq := List.find?_some hf
      simp only at hq
      have hq1 : q.1 = k := by simpa using hq
      simp [hq1]
  · next hnone =>
    have hn : List.find? (fun p : String × Json => p.1 == k) fs = none := by
      cases hf : List.find? (fun p : String × Json => p.1 == k) fs with
      | none => rfl
      | some q => rw [hf] at hnone; simp at hnone
    rw [List.find?_append, hn]
    simp [List.find?]

theorem dictGet_dictSet_ne (fs : List (String × Json)) (k k' : String) (v : Json)
    (h : (k' == k) = false) : dictGet (dictSet fs k v) k' = dictGet fs k' := by
  have hkk : (k == k') = false := by
    cases hb : k == k' with
    | false => rfl
    | true =>
      have hkeq : k = k' := by simpa using hb
      subst hkeq; simp at h
  unfold dictGet dictSet
  split
  · rw [List.find?_map]
    have hcomp : ((fun p : String × Json => p.1 == k') ∘
        fun p : String × Json => if p.1 == k then (k, v) else p)
        = fun p : String × Json => p.1 == k' := by
      funext p
      by_cases hp : (p.1 == k) = true
      · have hpk : p.1 = k := by simpa using hp
        simp [Function.comp, hp, hpk, hkk]
      · simp [Function.comp, hp]
    rw [hcomp]
    cases hf : List.find? (fun p : String × Json => p.1 == k') fs with
    | none => simp
    | some q =>
      have hq := List.find?_some hf
      simp only at hq
      have hq1 : q.1 = k' := by simpa using hq
      have hqk : ¬(q.1 = k) := by
        rw [hq1]
        intro hcon
        subst hcon
        simp at h
      simp [hqk]
  · rw [List.find?_append]
    have hsingle : List.find? (fun p : String × Json => p.1 == k') [(k, v)] = none := by
      simp [List.find?, hkk]
    rw [hsingle]
    simp

theorem mkDateTime_inRange {y m d h mi s : Nat} {dt : PyDateTime}
    (hmk : mkDateTime y m d h mi s = some dt) : dt.InRange := by
  unfold mkDateTime at hmk
  split at hmk
  · next hc =>
    obtain rfl : _ = dt := Option.some.inj hmk
    exact ⟨hc.2.2.1, hc.2.2.2.1, hc.2.2.2.2.1, hc.2.2.2.2.2.1, hc.2.2.2.2.2.2.1,
      hc.2.2.2.2.2.2.2.1⟩
  · exact absurd hmk (by simp)

theorem strptimeYmdHMS_inRange {str : String} {dt : PyDateTime}
    (h : strptimeYmdHMS str = some dt) : dt.InRange := by
  unfold strptimeYmdHMS at h
  simp only [bind, Option.bind_eq_some] at h
  obtain ⟨⟨y, r1⟩, _, h⟩ := h
  obtain ⟨r2, _, h⟩ := h
  obtain ⟨⟨m, r3⟩, _, h⟩ := h
  obtain ⟨r4, _, h⟩ := h
  obtain ⟨⟨d, r5⟩, _, h⟩ := h
  obtain ⟨r6, _, h⟩ := h
  obtain ⟨⟨hh, r7⟩, _, h⟩ := h
  obtain ⟨r8, _, h⟩ := h
  obtain ⟨⟨mi, r9⟩, _, h⟩ := h
  obtain ⟨r10, _, h⟩ := h
  obtain ⟨⟨sec, r11⟩, _, h⟩ := h
  split at h
  · exact mkDateTime_inRange h
  · exact absurd h (by simp)

theorem daysInMonth_pos (y m : Nat) : 1 ≤ daysInMonth y m := by
  unfold daysInMonth
  split
  · split <;> omega
  · split <;> omega

theorem daysBeforeMonth_succ (y m : Nat) (h : 1 ≤ m) :
    daysBeforeMonth y (m + 1) = daysBeforeMonth y m + daysInMonth y m := by
  have hm : (m == 0) = false := by simp; omega
  simp [daysBeforeMonth, hm]

theorem daysBeforeMonth_thirteen (y : Nat) :
    daysBeforeMonth y 13 = daysInYear y := by
  by_cases hl : isLeap y <;>
    simp [daysBeforeMonth, daysInMonth, daysInYear, hl]

theorem totalMinutes_addOneHour {dt : PyDateTime} (hr : dt.InRange) :
    totalMinutes (addOneHour dt) = totalMinutes dt + 60 := by
  obtain ⟨y, m, d, hou, mi, sec⟩ := dt
  obtain ⟨h1, h2, h3, h4, h5, h6⟩ := hr
  simp only at h1 h2 h3 h4 h5 h6
  unfold addOneHour totalMinutes
  simp only
  split
  · next hh =>
    simp only
    omega
  · next hh =>
    split
    · next hd =>
      simp only
      omega
    · next hd =>
      split
      · next hm =>
        simp only
        have hsucc := daysBeforeMonth_succ y m h1
        have hpos := daysInMonth_pos y m
        omega
      · next hm =>
        simp only
        have hm12 : m = 12 := by omega
        subst hm12
        have hdim : daysInMonth y 12 = 31 := by simp [daysInMonth]
        have h13 := daysBeforeMonth_thirteen y
        have hsucc : daysBeforeMonth y 13
            = daysBeforeMonth y 12 + daysInMonth y 12 :=
          daysBeforeMonth_succ y 12 (by omega)
        have hy : daysBeforeYear (y + 1)
            = daysBeforeYear y + daysInYear y := by
          simp [daysBeforeYear]
        have hb1 : daysBeforeMonth (y + 1) 1 = 0 := by
          simp [daysBeforeMonth]
        omega

/-- The claim C9 states the response depends only on the inbound payload and
the external responses.  The embedded `lambda_handler` consumes exactly the
module constants, the environment and the event; `invoke` exhibits that no
module-level binding is updated, so a second warm invocation on the state
left by the first, with the same environment and event, yields the same
response, trace and state. -/
theorem claim_C9 (st : ModuleState) (env : Env) (event : Json) :
    invoke ((invoke st env event).2.2) env event = invoke st env event := by
  rfl

/-- The claim C6: if any of the three secret fetches errors or yields empty
content, the handler answers 500 "Missing secrets." before any AI call
(the trace holds exactly the three secret fetches), and `get_secret`
substitutes no default (it yields `none` on a fetch error and on empty
content). -/
theorem claim_C6 :
    (∀ (env : Env) (b k m : String), env.s3 b k = .err m →
      get_secret env b k = none) ∧
    (∀ (env : Env) (b k c : String), env.s3 b k = .ok c → pyStrip c = "" →
      get_secret env b k = none) ∧
    (∀ (st : ModuleState) (env : Env) (event : Json),
      (get_secret env st.s3_bucket_name st.s3_gemini_key_file = none ∨
       get_secret env st.s3_bucket_name st.s3_google_creds_file = none ∨
       get_secret env st.s3_bucket_name st.s3_calendar_id_file = none) →
      lambda_handler st env event = (err500 "Missing secrets.", secretTrace st)) := by
  refine ⟨?_, ?_, ?_⟩
  · intro env b k m h
    simp [get_secret, h]
  · intro env b k c h he
    simp [get_secret, h, he]
  · intro st env event hd
    rcases hd with h | h | h
    · simp [lambda_handler, h]
    · cases h1 : get_secret env st.s3_bucket_name st.s3_gemini_key_file <;>
        simp [lambda_handler, h, h1]
    · cases h1 : get_secret env st.s3_bucket_name st.s3_gemini_key_file <;>
        cases h2 : get_secret env st.s3_bucket_name st.s3_google_creds_file <;>
        simp [lambda_handler, h, h1, h2]

/-- Witness for C6 at a concrete input: the Gemini-key object is denied, so
its `get_secret` is `None` and the whole run returns 500 "Missing secrets."
with only the three secret fetches in the trace. -/
theorem claim_C6_witness :
    get_secret envNoGemini "groupme-bucket" "gemini_api_key.txt" = none ∧
    lambda_handler initModuleState envNoGemini (mkEvent userBodyText)
      = (err500 "Missing secrets.", secretTrace initModuleState) :=
  ⟨claim_C6.1 envNoGemini "groupme-bucket" "gemini_api_key.txt" "AccessDenied"
      (by rfl),
   claim_C6.2.2 initModuleState envNoGemini (mkEvent userBodyText)
      (Or.inl (by rfl))⟩

/-- Counterexample to C1 as stated: on a bot payload in a healthy
environment the handler does answer 200 "Ignored bot message", but its trace
contains the three secret fetches of lines 159-161 (performed before the
bot check of line 173), refuting "performs no secret fetch". -/
theorem claim_C1_cex :
    lambda_handler initModuleState (happyEnv modelTextFound) (mkEvent botBodyText)
      = ({ statusCode := 200, body := "Ignored bot message" },
         [.secretFetch "gemini_api_key.txt", .secretFetch "google_creds.json",
          .secretFetch "calendar_id.txt"]) := by
  rfl

/-- The claim C1 as amended: when the three secret fetches succeed and the
credential secret parses, a bot payload is answered 200 "Ignored bot
message" with no AI call, no token refresh and no calendar call — but the
three secret fetches do occur (the trace is exactly `secretTrace`). -/
theorem claim_C1 (st : ModuleState) (env : Env) (event : Json)
    (gk gcj cal_id : String) (creds : Json) (evfs pfs : List (String × Json))
    (body_str : String)
    (h1 : get_secret env st.s3_bucket_name st.s3_gemini_key_file = some gk)
    (h2 : get_secret env st.s3_bucket_name st.s3_google_creds_file = some gcj)
    (h3 : get_secret env st.s3_bucket_name st.s3_calendar_id_file = some cal_id)
    (h4 : env.jsonLoads gcj = .ok creds)
    (h5 : event = .obj evfs)
    (h6 : dictGet evfs "body" = some (.str body_str))
    (h7 : env.jsonLoads body_str = .ok (.obj pfs))
    (h8 : isBotPayload pfs = true) :
    lambda_handler st env event
      = (⟨200, "Ignored bot message"⟩, secretTrace st) := by
  subst h5
  simp [lambda_handler, h1, h2, h3, h4, h6, h7, handle_message, h8]

/-- Witness for the amended C1 at the concrete bot run. -/
theorem claim_C1_witness :
    lambda_handler initModuleState (happyEnv modelTextFound) (mkEvent botBodyText)
      = (⟨200, "Ignored bot message"⟩, secretTrace initModuleState) :=
  claim_C1 initModuleState (happyEnv modelTextFound) (mkEvent botBodyText)
    geminiKeyText credsSecretText calendarIdText credsJsonFull
    [("body", Json.str botBodyText)]
    [("sender_type", Json.str "bot"), ("text", Json.str "echo"),
     ("group_name", Json.str "FC Test")]
    botBodyText
    (by rfl) (by rfl) (by rfl) (by rfl) (by rfl) (by rfl) (by rfl) (by rfl)

theorem lambda_handler_message {st : ModuleState} {env : Env} {event : Json}
    {gk gcj cal_id : String} {creds : Json} {pfs : List (String × Json)}
    (h : ReachesMessage st env event gk gcj cal_id creds pfs) :
    lambda_handler st env event
      = ((handle_message st env gk creds cal_id (.obj pfs)).1,
         secretTrace st ++ (handle_message st env gk creds cal_id (.obj pfs)).2) := by
  obtain ⟨h1, h2, h3, h4, evfs, body_str, rfl, h6, h7⟩ := h
  simp [lambda_handler, h1, h2, h3, h4, h6, h7]

theorem reaches_gk_ne_empty {st : ModuleState} {env : Env} {event : Json}
    {gk gcj cal_id : String} {creds : Json} {pfs : List (String × Json)}
    (h : ReachesMessage st env event gk gcj cal_id creds pfs) :
    (gk == "") = false :=
  get_secret_some_ne_empty h.1

theorem extract_event_data_of_failure (raw : Json) {env : Env} {k : String}
    (hk : (k == "") = false) (hf : AiFailure env) :
    extract_event_data env k raw = (eventNotFound, [.aiCall]) := by
  rcases hf with h | ⟨m, h⟩ | ⟨s, b, h, hs⟩ | ⟨s, b, h, hs, ht⟩ |
      ⟨s, b, t, m, h, hs, ht, hp⟩
  · simp [extract_event_data, hk, h]
  · simp [extract_event_data, hk, h]
  · simp [extract_event_data, hk, h, hs]
  · have hns : ¬400 ≤ s := by omega
    simp [extract_event_data, hk, h, hns, ht]
  · have hns : ¬400 ≤ s := by omega
    simp [extract_event_data, hk, h, hns, ht, hp]

theorem extract_event_data_of_ok (raw : Json) {env : Env} {k : String}
    {s : Nat} {b : Json} {t : String} {j : Json}
    (hk : (k == "") = false) (h : env.geminiPost = .resp s b) (hs : s < 400)
    (ht : geminiText b = some t)
    (hp : env.jsonLoads (fenceStrip t) = .ok j) :
    extract_event_data env k raw = (j, [.aiCall]) := by
  have hns : ¬400 ≤ s := by omega
  simp [extract_event_data, hk, h, hns, ht, hp]

/-- Counterexample to C3 as stated: with the three secrets present and an
invocation body that is not valid JSON, the `json.loads` of line 172 raises
and the outermost catch of lines 206-208 answers 500 — a fatal response,
not a safe no-op. -/
theorem claim_C3_cex :
    (lambda_handler initModuleState (happyEnv modelTextFound)
        (mkEvent "this is not json")).1.statusCode = 500 := by
  rfl

/-- The claim C3 as amended: a malformed inbound body is caught by the
outermost handler and converted to a fatal 500 "Unexpected Error" response
carrying the parse-error message (it is not degraded to a success/no-op). -/
theorem claim_C3 (st : ModuleState) (env : Env) (event : Json)
    (gk gcj cal_id : String) (creds : Json) (evfs : List (String × Json))
    (body_str m : String)
    (h1 : get_secret env st.s3_bucket_name st.s3_gemini_key_file = some gk)
    (h2 : get_secret env st.s3_bucket_name st.s3_google_creds_file = some gcj)
    (h3 : get_secret env st.s3_bucket_name st.s3_calendar_id_file = some cal_id)
    (h4 : env.jsonLoads gcj = .ok creds)
    (h5 : event = .obj evfs)
    (h6 : dictGet evfs "body" = some (.str body_str))
    (h7 : env.jsonLoads body_str = .error m) :
    lambda_handler st env event
      = (handlePyErr (.otherError m), secretTrace st) ∧
    (lambda_handler st env event).1.statusCode = 500 := by
  subst h5
  have hmain : lambda_handler st env (.obj evfs)
      = (handlePyErr (.otherError m), secretTrace st) := by
    simp [lambda_handler, h1, h2, h3, h4, h6, h7]
  exact ⟨hmain, by rw [hmain]; rfl⟩

/-- Witness for the amended C3 at the concrete malformed-body run. -/
theorem claim_C3_witness :
    lambda_handler initModuleState (happyEnv modelTextFound)
        (mkEvent "this is not json")
      = (handlePyErr (.otherError "Expecting value: line 1 column 1 (char 0)"),
         secretTrace initModuleState) :=
  (claim_C3 initModuleState (happyEnv modelTextFound)
    (mkEvent "this is not json") geminiKeyText credsSecretText calendarIdText
    credsJsonFull [("body", Json.str "this is not json")] "this is not json"
    "Expecting value: line 1 column 1 (char 0)"
    (by rfl) (by rfl) (by rfl) (by rfl) (by rfl) (by rfl) (by rfl)).1

/-- The claim C4: on any AI-call failure (timeout, transport error,
non-success status, unusable response shape, or model output that is not
valid JSON after fence stripping) the extractor returns the
`event_found: false` record without raising, and the handler answers 200
"No event found." — not 500 or 504 — with no token refresh and no calendar
call (the trace past the secret fetches is exactly the one AI call). -/
theorem claim_C4 (st : ModuleState) (env : Env) (event : Json)
    (gk gcj cal_id : String) (creds : Json) (pfs : List (String × Json))
    (hr : ReachesMessage st env event gk gcj cal_id creds pfs)
    (hb : isBotPayload pfs = false)
    (hf : AiFailure env) :
    extract_event_data env gk ((dictGet pfs "text").getD (.str ""))
      = (eventNotFound, [.aiCall]) ∧
    lambda_handler st env event = (noEventResponse, secretTrace st ++ [.aiCall]) := by
  have hk := reaches_gk_ne_empty hr
  have hex := extract_event_data_of_failure
    ((dictGet pfs "text").getD (.str "")) hk hf
  refine ⟨hex, ?_⟩
  rw [lambda_handler_message hr]
  have hset : ∀ g, dictGet
      (dictSet [("event_found", Json.bool false)] "group_context" g)
      "event_found" = some (Json.bool false) := by
    intro g
    rw [dictGet_dictSet_ne _ _ _ _ (by rfl)]
    rfl
  simp [handle_message, hb, hex, eventNotFound, hset, truthyOpt, Json.truthy]

/-- Witness for C4: the Gemini call times out and the run still answers 200
"No event found." having made no token or calendar call. -/
theorem claim_C4_witness :
    extract_event_data envAiTimeout geminiKeyText
        ((dictGet [("sender_type", Json.str "user"),
          ("text", Json.str "Pickup game Friday at 6"),
          ("group_name", Json.str "FC Test")] "text").getD (.str ""))
      = (eventNotFound, [.aiCall]) ∧
    lambda_handler initModuleState envAiTimeout (mkEvent userBodyText)
      = (noEventResponse, secretTrace initModuleState ++ [.aiCall]) :=
  claim_C4 initModuleState envAiTimeout (mkEvent userBodyText)
    geminiKeyText credsSecretText calendarIdText credsJsonFull
    [("sender_type", Json.str "user"),
     ("text", Json.str "Pickup game Friday at 6"),
     ("group_name", Json.str "FC Test")]
    ⟨by rfl, by rfl, by rfl, by rfl,
     [("body", Json.str userBodyText)], userBodyText, rfl, by rfl, by rfl⟩
    (by rfl) (Or.inl rfl)

/-- The claim C5: when the Gemini POST succeeds and a model text is
extracted, (a) if the fence-stripped text parses as JSON the extractor
returns exactly the parsed value, (b) if it does not parse the extractor
returns the `event_found: false` record, and (c) a parsed object lacking
`event_found` is treated as "no event": the handler answers 200
"No event found.". -/
theorem claim_C5 (st : ModuleState) (env : Env) (event : Json)
    (gk gcj cal_id : String) (creds : Json) (pfs : List (String × Json))
    (s : Nat) (b : Json) (t : String)
    (hr : ReachesMessage st env event gk gcj cal_id creds pfs)
    (hbot : isBotPayload pfs = false)
    (h9 : env.geminiPost = .resp s b) (h10 : s < 400)
    (h11 : geminiText b = some t) :
    (∀ j, env.jsonLoads (fenceStrip t) = .ok j →
      extract_event_data env gk ((dictGet pfs "text").getD (.str ""))
        = (j, [.aiCall])) ∧
    (∀ m, env.jsonLoads (fenceStrip t) = .error m →
      extract_event_data env gk ((dictGet pfs "text").getD (.str ""))
        = (eventNotFound, [.aiCall])) ∧
    (∀ jfs, env.jsonLoads (fenceStrip t) = .ok (.obj jfs) →
      dictGet jfs "event_found" = none →
      lambda_handler st env event
        = (noEventResponse, secretTrace st ++ [.aiCall])) := by
  have hk := reaches_gk_ne_empty hr
  refine ⟨?_, ?_, ?_⟩
  · intro j hp
    exact extract_event_data_of_ok ((dictGet pfs "text").getD (.str ""))
      hk h9 h10 h11 hp
  · intro m hp
    exact extract_event_data_of_failure ((dictGet pfs "text").getD (.str ""))
      hk
      (Or.inr (Or.inr (Or.inr (Or.inr ⟨s, b, t, m, h9, h10, h11, hp⟩))))
  · intro jfs hp hef
    have hex := extract_event_data_of_ok
      ((dictGet pfs "text").getD (.str "")) hk h9 h10 h11 hp
    rw [lambda_handler_message hr]
    have hset : dictGet (dictSet jfs "group_context"
        ((dictGet pfs "group_name").getD (.str "Unknown Group")))
        "event_found" = none := by
      rw [dictGet_dictSet_ne _ _ _ _ (by rfl)]
      exact hef
    simp [handle_message, hbot, hex, hset, truthyOpt]

/-- Witness for C5: at the concrete happy-path run, (a) the full-event model
text yields exactly its parse, (b) an unparsable text yields the
`event_found: false` record, and (c) a parsed object without `event_found`
makes the run answer 200 "No event found.". -/
theorem claim_C5_witness :
    extract_event_data (happyEnv modelTextFound) geminiKeyText
        ((dictGet [("sender_type", Json.str "user"),
          ("text", Json.str "Pickup game Friday at 6"),
          ("group_name", Json.str "FC Test")] "text").getD (.str ""))
      = (modelJsonFound, [.aiCall]) ∧
    lambda_handler initModuleState (happyEnv modelTextNoEF) (mkEvent userBodyText)
      = (noEventResponse, secretTrace initModuleState ++ [.aiCall]) := by
  refine ⟨?_, ?_⟩
  · exact (claim_C5 initModuleState (happyEnv modelTextFound)
      (mkEvent userBodyText) geminiKeyText credsSecretText calendarIdText
      credsJsonFull
      [("sender_type", Json.str "user"),
       ("text", Json.str "Pickup game Friday at 6"),
       ("group_name", Json.str "FC Test")]
      200 (geminiBody modelTextFound) modelTextFound
      ⟨by rfl, by rfl, by rfl, by rfl,
       [("body", Json.str userBodyText)], userBodyText, rfl, by rfl, by rfl⟩
      (by rfl) rfl (by omega) (by rfl)).1 modelJsonFound (by rfl)
  · exact (claim_C5 initModuleState (happyEnv modelTextNoEF)
      (mkEvent userBodyText) geminiKeyText credsSecretText calendarIdText
      credsJsonFull
      [("sender_type", Json.str "user"),
       ("text", Json.str "Pickup game Friday at 6"),
       ("group_name", Json.str "FC Test")]
      200 (geminiBody modelTextNoEF) modelTextNoEF
      ⟨by rfl, by rfl, by rfl, by rfl,
       [("body", Json.str userBodyText)], userBodyText, rfl, by rfl, by rfl⟩
      (by rfl) rfl (by omega) (by rfl)).2.2 [("title", Json.str "Lunch")]
      (by rfl) (by rfl)

/-- The claim C7: the refresher unwraps credentials nested under
`"installed"` or `"web"`; a missing (or falsy) `client_id`/`client_secret`/
`refresh_token` makes it return `None` without calling the token endpoint; a
failing token-endpoint call raises a request error (a failure signal); a
successful call returns the `access_token` value; and — end to end — a
credential record missing `refresh_token` makes the handler answer 500
"Failed to refresh Google access token.". -/
theorem claim_C7 :
    (∀ (env : Env) (fs : List (String × Json)) (j : Json),
      dictGet fs "installed" = some j →
      refresh_access_token env (.obj fs) = refreshFromCreds env j) ∧
    (∀ (env : Env) (fs : List (String × Json)) (j : Json),
      dictGet fs "installed" = none → dictGet fs "web" = some j →
      refresh_access_token env (.obj fs) = refreshFromCreds env j) ∧
    (∀ (env : Env) (fs : List (String × Json)),
      (truthyOpt (dictGet fs "client_id") && truthyOpt (dictGet fs "client_secret")
        && truthyOpt (dictGet fs "refresh_token")) = false →
      refreshFromCreds env (.obj fs) = (.returnedNone, [])) ∧
    (∀ (env : Env) (fs : List (String × Json)) (s : Nat) (b : Json),
      (truthyOpt (dictGet fs "client_id") && truthyOpt (dictGet fs "client_secret")
        && truthyOpt (dictGet fs "refresh_token")) = true →
      env.tokenPost = .resp s b → 400 ≤ s →
      refreshFromCreds env (.obj fs)
        = (.raised (.requestException (httpErrMsg s)), [.tokenCall])) ∧
    (∀ (env : Env) (fs : List (String × Json)) (s : Nat)
        (bfs : List (String × Json)) (tok : Json),
      (truthyOpt (dictGet fs "client_id") && truthyOpt (dictGet fs "client_secret")
        && truthyOpt (dictGet fs "refresh_token")) = true →
      env.tokenPost = .resp s (.obj bfs) → s < 400 →
      dictGet bfs "access_token" = some tok →
      refreshFromCreds env (.obj fs) = (.token tok, [.tokenCall])) ∧
    (∀ (st : ModuleState) (env : Env) (event : Json)
        (gk gcj cal_id : String) (creds : Json)
        (cfs pfs jfs : List (String × Json)) (s : Nat) (b : Json) (t : String),
      ReachesMessage st env event gk gcj cal_id creds pfs →
      isBotPayload pfs = false →
      creds = .obj cfs →
      env.geminiPost = .resp s b → s < 400 → geminiText b = some t →
      env.jsonLoads (fenceStrip t) = .ok (.obj jfs) →
      truthyOpt (dictGet jfs "event_found") = true →
      dictGet cfs "installed" = none → dictGet cfs "web" = none →
      dictGet cfs "refresh_token" = none →
      lambda_handler st env event
        = (err500 "Failed to refresh Google access token.",
           secretTrace st ++ [.aiCall])) := by
  refine ⟨?_, ?_, ?_, ?_, ?_, ?_⟩
  · intro env fs j h
    simp [refresh_access_token, unwrapCreds, h]
  · intro env fs j h1 h2
    simp [refresh_access_token, unwrapCreds, h1, h2]
  · intro env fs h
    simp only [refreshFromCreds, h]
    simp
  · intro env fs s b h htok hs
    simp [refreshFromCreds, h, htok, hs]
  · intro env fs s bfs tok h htok hs hacc
    have hns : ¬400 ≤ s := by omega
    simp [refreshFromCreds, h, htok, hns, hacc]
  · intro st env event gk gcj cal_id creds cfs pfs jfs s b t
      hr hbot hcr h9 h10 h11 h12 h13 h14 h15 h16
    have hk := reaches_gk_ne_empty hr
    have hex := extract_event_data_of_ok
      ((dictGet pfs "text").getD (.str "")) hk h9 h10 h11 h12
    rw [lambda_handler_message hr]
    have hef : ∀ g, dictGet (dictSet jfs "group_context" g) "event_found"
        = dictGet jfs "event_found" := fun g =>
      dictGet_dictSet_ne _ _ _ _ (by rfl)
    have hrf : refresh_access_token env creds = (.returnedNone, []) := by
      subst hcr
      simp [refresh_access_token, unwrapCreds, h14, h15, refreshFromCreds,
        h16, truthyOpt]
    simp [handle_message, hbot, hex, hef, h13, hrf]

/-- Witness for C7: the unwrap equation at a concrete nested record, and the
end-to-end run whose credential secret lacks `refresh_token`, which answers
500 "Failed to refresh Google access token." after only the AI call. -/
theorem claim_C7_witness :
    refresh_access_token (happyEnv modelTextFound)
        (.obj [("installed", credsJsonFull)])
      = refreshFromCreds (happyEnv modelTextFound) credsJsonFull ∧
    lambda_handler initModuleState envNoRT (mkEvent userBodyText)
      = (err500 "Failed to refresh Google access token.",
         secretTrace initModuleState ++ [.aiCall]) :=
  ⟨claim_C7.1 (happyEnv modelTextFound) [("installed", credsJsonFull)]
      credsJsonFull (by rfl),
   claim_C7.2.2.2.2.2 initModuleState envNoRT (mkEvent userBodyText)
      geminiKeyText credsSecretTextNoRT calendarIdText credsJsonNoRT
      [("client_id", Json.str "cid.apps"), ("client_secret", Json.str "cs3cr3t")]
      [("sender_type", Json.str "user"),
       ("text", Json.str "Pickup game Friday at 6"),
       ("group_name", Json.str "FC Test")]
      [("event_found", Json.bool true), ("title", Json.str "Pickup game"),
       ("date", Json.str "2025-10-17"), ("time", Json.str "18:00"),
       ("location", Json.str "South Field"),
       ("description", Json.str "Weekly game")]
      200 (geminiBody modelTextFound) modelTextFound
      ⟨by rfl, by rfl, by rfl, by rfl,
       [("body", Json.str userBodyText)], userBodyText, rfl, by rfl, by rfl⟩
      (by rfl) (by rfl) rfl (by omega) (by rfl) (by rfl) (by rfl) (by rfl)
      (by rfl) (by rfl)⟩

/-- Counterexample to C2 as stated: in a healthy environment whose model
output has `date` and `time` null (so `strptime` fails), the creator returns
its error dict, which line 193 never inspects: the handler answers 200
"Event created." with a null link — a success response where the claim
demands a 500. -/
theorem claim_C2_cex :
    (lambda_handler initModuleState (happyEnv modelTextNullDate)
        (mkEvent userBodyText)).1
      = ⟨200, "\x7b\"status\": \"Event created.\", \"link\": null\x7d"⟩ := by
  rfl

/-- The claim C2 as amended: a calendar POST answered with a non-success
status is surfaced as a 500 "API Call Error" response; but a missing or
unparseable date/time makes the creator return its error dict, which the
handler ignores, answering 200 "Event created." with a null link. -/
theorem claim_C2 (st : ModuleState) (env : Env) (event : Json)
    (gk gcj cal_id : String) (creds tok : Json)
    (pfs jfs : List (String × Json)) (s : Nat) (b : Json) (t : String)
    (trT : List ExtCall)
    (hr : ReachesMessage st env event gk gcj cal_id creds pfs)
    (hbot : isBotPayload pfs = false)
    (h9 : env.geminiPost = .resp s b) (h10 : s < 400)
    (h11 : geminiText b = some t)
    (h12 : env.jsonLoads (fenceStrip t) = .ok (.obj jfs))
    (h13 : truthyOpt (dictGet jfs "event_found") = true)
    (hrf : refresh_access_token env creds = (.token tok, trT))
    (htk : tok.truthy = true) :
    (∀ (eb : EventBody) (cs : Nat) (cb : Json),
      build_event_body st (handlerEventData jfs pfs) = .ok eb →
      env.calendarPost = .resp cs cb → 400 ≤ cs →
      (lambda_handler st env event).1
        = ⟨500, Json.dumps (.str ("API Call Error: " ++ httpErrMsg cs))⟩) ∧
    (build_event_body st (handlerEventData jfs pfs) = .error .invalidDateTime →
      (lambda_handler st env event).1
        = ⟨200, Json.dumps (.obj [("status", Json.str "Event created."),
            ("link", Json.null)])⟩) := by
  have hk := reaches_gk_ne_empty hr
  have hex := extract_event_data_of_ok
    ((dictGet pfs "text").getD (.str "")) hk h9 h10 h11 h12
  have hef : ∀ g, dictGet (dictSet jfs "group_context" g) "event_found"
      = dictGet jfs "event_found" := fun g =>
    dictGet_dictSet_ne _ _ _ _ (by rfl)
  constructor
  · intro eb cs cb hbld hcal hcs
    simp only [handlerEventData] at hbld
    rw [lambda_handler_message hr]
    simp [handle_message, hbot, hex, hef, h13, hrf, htk,
      create_google_event, hbld, hcal, hcs, handlePyErr]
  · intro hbld
    simp only [handlerEventData] at hbld
    rw [lambda_handler_message hr]
    simp [handle_message, hbot, hex, hef, h13, hrf, htk,
      create_google_event, hbld]
    rfl

/-- Witness for the amended C2: a 403 from the calendar endpoint is surfaced
as 500 "API Call Error", and the null-date run is answered 200 with a null
link. -/
theorem claim_C2_witness :
    (lambda_handler initModuleState envCal403 (mkEvent userBodyText)).1
      = ⟨500, Json.dumps (.str ("API Call Error: " ++ httpErrMsg 403))⟩ ∧
    (lambda_handler initModuleState (happyEnv modelTextNullDate)
        (mkEvent userBodyText)).1
      = ⟨200, Json.dumps (.obj [("status", Json.str "Event created."),
          ("link", Json.null)])⟩ :=
  ⟨(claim_C2 initModuleState envCal403 (mkEvent userBodyText)
      geminiKeyText credsSecretText calendarIdText credsJsonFull
      (Json.str "ya29.token")
      [("sender_type", Json.str "user"),
       ("text", Json.str "Pickup game Friday at 6"),
       ("group_name", Json.str "FC Test")]
      [("event_found", Json.bool true), ("title", Json.str "Pickup game"),
       ("date", Json.str "2025-10-17"), ("time", Json.str "18:00"),
       ("location", Json.str "South Field"),
       ("description", Json.str "Weekly game")]
      200 (geminiBody modelTextFound) modelTextFound [.tokenCall]
      ⟨by rfl, by rfl, by rfl, by rfl,
       [("body", Json.str userBodyText)], userBodyText, rfl, by rfl, by rfl⟩
      (by rfl) rfl (by omega) (by rfl) (by rfl) (by rfl) (by rfl)
      (by rfl)).1
      { summary := Json.str "Pickup game", location := Json.str "South Field",
        description := "Group: FC Test" ++ "\n" ++ "Details: Weekly game",
        startDateTime := "2025-10-17T18:00:00",
        startTimeZone := "America/New_York",
        endDateTime := "2025-10-17T19:00:00",
        endTimeZone := "America/New_York" }
      403 (Json.obj []) (by rfl) (by rfl) (by omega),
   (claim_C2 initModuleState (happyEnv modelTextNullDate) (mkEvent userBodyText)
      geminiKeyText credsSecretText calendarIdText credsJsonFull
      (Json.str "ya29.token")
      [("sender_type", Json.str "user"),
       ("text", Json.str "Pickup game Friday at 6"),
       ("group_name", Json.str "FC Test")]
      [("event_found", Json.bool true), ("title", Json.str "Pickup game"),
       ("date", Json.null), ("time", Json.null),
       ("location", Json.str "South Field"),
       ("description", Json.str "Weekly game")]
      200 (geminiBody modelTextNullDate) modelTextNullDate [.tokenCall]
      ⟨by rfl, by rfl, by rfl, by rfl,
       [("body", Json.str userBodyText)], userBodyText, rfl, by rfl, by rfl⟩
      (by rfl) rfl (by omega) (by rfl) (by rfl) (by rfl) (by rfl)
      (by rfl)).2 (by rfl)⟩

/-- The claim C8: whenever the calendar creator successfully builds an event
body from the extracted record, the body's summary is the record's title,
its location the record's location, its description the group context
concatenated with the extracted description, its start is the parsed
date/time, its end the start plus exactly one hour (sixty minutes on the
linear time axis), and both start and end carry the configured time zone
(initialised to "America/New_York"). -/
theorem claim_C8 (st : ModuleState) (event_data : List (String × Json))
    (dv tv ti lo de gc : Json) (dtv : PyDateTime)
    (hd : dictGet event_data "date" = some dv)
    (ht : dictGet event_data "time" = some tv)
    (hst : strptimeYmdHMS (dv.pyStr ++ "T" ++ tv.pyStr ++ ":00") = some dtv)
    (hti : dictGet event_data "title" = some ti)
    (hlo : dictGet event_data "location" = some lo)
    (hgc : dictGet event_data "group_context" = some gc)
    (hde : dictGet event_data "description" = some de) :
    build_event_body st event_data = .ok
      { summary := ti, location := lo,
        description := "Group: " ++ gc.pyStr ++ "\n" ++ "Details: " ++ de.pyStr,
        startDateTime := dtv.isoformat, startTimeZone := st.timezone,
        endDateTime := (addOneHour dtv).isoformat,
        endTimeZone := st.timezone } ∧
    totalMinutes (addOneHour dtv) = totalMinutes dtv + 60 ∧
    initModuleState.timezone = "America/New_York" := by
  refine ⟨?_, totalMinutes_addOneHour (strptimeYmdHMS_inRange hst), rfl⟩
  simp [build_event_body, hd, ht, hst, hti, hlo, hgc, hde]

/-- Witness for C8 at the concrete extracted record of the happy run. -/
theorem claim_C8_witness :
    build_event_body initModuleState
      [("event_found", Json.bool true), ("title", Json.str "Pickup game"),
       ("date", Json.str "2025-10-17"), ("time", Json.str "18:00"),
       ("location", Json.str "South Field"),
       ("description", Json.str "Weekly game"),
       ("group_context", Json.str "FC Test")] = .ok
      { summary := Json.str "Pickup game", location := Json.str "South Field",
        description := "Group: " ++ (Json.str "FC Test").pyStr ++ "\n" ++
          "Details: " ++ (Json.str "Weekly game").pyStr,
        startDateTime := (⟨2025, 10, 17, 18, 0, 0⟩ : PyDateTime).isoformat,
        startTimeZone := initModuleState.timezone,
        endDateTime := (addOneHour ⟨2025, 10, 17, 18, 0, 0⟩).isoformat,
        endTimeZone := initModuleState.timezone } ∧
    totalMinutes (addOneHour ⟨2025, 10, 17, 18, 0, 0⟩)
      = totalMinutes ⟨2025, 10, 17, 18, 0, 0⟩ + 60 ∧
    initModuleState.timezone = "America/New_York" :=
  claim_C8 initModuleState
    [("event_found", Json.bool true), ("title", Json.str "Pickup game"),
     ("date", Json.str "2025-10-17"), ("time", Json.str "18:00"),
     ("location", Json.str "South Field"),
     ("description", Json.str "Weekly game"),
     ("group_context", Json.str "FC Test")]
    (Json.str "2025-10-17") (Json.str "18:00") (Json.str "Pickup game")
    (Json.str "South Field") (Json.str "Weekly game") (Json.str "FC Test")
    ⟨2025, 10, 17, 18, 0, 0⟩
    (by rfl) (by rfl) (by rfl) (by rfl) (by rfl) (by rfl) (by rfl)

/-- The claim C10: when the extracted record announces an event and parses a
valid date/time but lacks `title`, `location` or `description`, the
creator's unguarded key access raises and the outermost catch answers 500
"Unexpected Error" carrying the `KeyError` text of the first missing key —
not a 200 "no event found" response. -/
theorem claim_C10 (st : ModuleState) (env : Env) (event : Json)
    (gk gcj cal_id : String) (creds tok : Json)
    (pfs jfs : List (String × Json)) (s : Nat) (b : Json) (t : String)
    (trT : List ExtCall) (dv tv : Json) (dtv : PyDateTime)
    (hr : ReachesMessage st env event gk gcj cal_id creds pfs)
    (hbot : isBotPayload pfs = false)
    (h9 : env.geminiPost = .resp s b) (h10 : s < 400)
    (h11 : geminiText b = some t)
    (h12 : env.jsonLoads (fenceStrip t) = .ok (.obj jfs))
    (h13 : truthyOpt (dictGet jfs "event_found") = true)
    (hrf : refresh_access_token env creds = (.token tok, trT))
    (htk : tok.truthy = true)
    (hd : dictGet jfs "date" = some dv)
    (htm : dictGet jfs "time" = some tv)
    (hst : strptimeYmdHMS (dv.pyStr ++ "T" ++ tv.pyStr ++ ":00") = some dtv) :
    (dictGet jfs "title" = none →
      (lambda_handler st env event).1
        = ⟨500, Json.dumps (.str ("Unexpected Error: " ++ keyErrStr "title"))⟩) ∧
    (∀ ti, dictGet jfs "title" = some ti → dictGet jfs "location" = none →
      (lambda_handler st env event).1
        = ⟨500, Json.dumps (.str ("Unexpected Error: " ++ keyErrStr "location"))⟩) ∧
    (∀ ti lo, dictGet jfs "title" = some ti → dictGet jfs "location" = some lo →
      dictGet jfs "description" = none →
      (lambda_handler st env event).1
        = ⟨500, Json.dumps
            (.str ("Unexpected Error: " ++ keyErrStr "description"))⟩) := by
  have hk := reaches_gk_ne_empty hr
  have hex := extract_event_data_of_ok
    ((dictGet pfs "text").getD (.str "")) hk h9 h10 h11 h12
  have hef : ∀ g, dictGet (dictSet jfs "group_context" g) "event_found"
      = dictGet jfs "event_found" := fun g =>
    dictGet_dictSet_ne _ _ _ _ (by rfl)
  have hne : ∀ (k' : String) (g : Json), (k' == "group_context") = false →
      dictGet (dictSet jfs "group_context" g) k' = dictGet jfs k' :=
    fun k' g hk' => dictGet_dictSet_ne _ _ _ _ hk'
  have hgc : ∀ g, dictGet (dictSet jfs "group_context" g) "group_context"
      = some g := fun g => dictGet_dictSet_self _ _ _
  refine ⟨?_, ?_, ?_⟩
  · intro hti
    have hbld : ∀ g, build_event_body st (dictSet jfs "group_context" g)
        = .error (.keyError "title") := by
      intro g
      have hd2 := (hne "date" g (by rfl)).trans hd
      have ht2 := (hne "time" g (by rfl)).trans htm
      have hti2 := (hne "title" g (by rfl)).trans hti
      simp [build_event_body, hd2, ht2, hst, hti2]
    rw [lambda_handler_message hr]
    simp [handle_message, hbot, hex, hef, h13, hrf, htk,
      create_google_event, hbld, handlePyErr]
  · intro ti hti hlo
    have hbld : ∀ g, build_event_body st (dictSet jfs "group_context" g)
        = .error (.keyError "location") := by
      intro g
      have hd2 := (hne "date" g (by rfl)).trans hd
      have ht2 := (hne "time" g (by rfl)).trans htm
      have hti2 := (hne "title" g (by rfl)).trans hti
      have hlo2 := (hne "location" g (by rfl)).trans hlo
      simp [build_event_body, hd2, ht2, hst, hti2, hlo2]
    rw [lambda_handler_message hr]
    simp [handle_message, hbot, hex, hef, h13, hrf, htk,
      create_google_event, hbld, handlePyErr]
  · intro ti lo hti hlo hde
    have hbld : ∀ g, build_event_body st (dictSet jfs "group_context" g)
        = .error (.keyError "description") := by
      intro g
      have hd2 := (hne "date" g (by rfl)).trans hd
      have ht2 := (hne "time" g (by rfl)).trans htm
      have hti2 := (hne "title" g (by rfl)).trans hti
      have hlo2 := (hne "location" g (by rfl)).trans hlo
      have hde2 := (hne "description" g (by rfl)).trans hde
      simp [build_event_body, hd2, ht2, hst, hti2, hlo2, hgc g, hde2]
    rw [lambda_handler_message hr]
    simp [handle_message, hbot, hex, hef, h13, hrf, htk,
      create_google_event, hbld, handlePyErr]

/-- Witness for C10: the model output that lacks `title` drives the run to
500 "Unexpected Error: 'title'". -/
theorem claim_C10_witness :
    (lambda_handler initModuleState (happyEnv modelTextNoTitle)
        (mkEvent userBodyText)).1
      = ⟨500, Json.dumps (.str ("Unexpected Error: " ++ keyErrStr "title"))⟩ :=
  (claim_C10 initModuleState (happyEnv modelTextNoTitle) (mkEvent userBodyText)
    geminiKeyText credsSecretText calendarIdText credsJsonFull
    (Json.str "ya29.token")
    [("sender_type", Json.str "user"),
     ("text", Json.str "Pickup game Friday at 6"),
     ("group_name", Json.str "FC Test")]
    [("event_found", Json.bool true),
     ("date", Json.str "2025-10-17"), ("time", Json.str "18:00"),
     ("location", Json.str "South Field"),
     ("description", Json.str "Weekly game")]
    200 (geminiBody modelTextNoTitle) modelTextNoTitle [.tokenCall]
    (Json.str "2025-10-17") (Json.str "18:00") ⟨2025, 10, 17, 18, 0, 0⟩
    ⟨by rfl, by rfl, by rfl, by rfl,
     [("body", Json.str userBodyText)], userBodyText, rfl, by rfl, by rfl⟩
    (by rfl) rfl (by omega) (by rfl) (by rfl) (by rfl) (by rfl) (by rfl)
    (by rfl) (by rfl) (by rfl)).1 (by rfl)
